import Mathlib

/-!
Verification of the device-authorization-flow client in pkg/auth/auth.go
(repository autopp/go-a0daf).

Modelling conventions:
* Timestamps and durations are integers counting nanoseconds, mirroring
  Go's time.Time / time.Duration; arithmetic is idealized as unbounded
  (int64 overflow is out of scope for the verified properties).
* The transport helper postForm (auth.go lines 235-253) is modelled by an
  environment function returning a PostOutcome per request: either a
  transport failure, which the Go helper surfaces as status 0 with a nil
  body and a non-nil error, or a response carrying a status code and body.
* HTTP bodies are modelled at the JSON level: a body is either a JSON
  object (a list of key/value pairs, in document order) or malformed.
  Decoding into a struct follows encoding/json Unmarshal semantics for the
  exact field tags used here: start from the zero value, fold over the
  document's pairs in order (later duplicates win), ignore unknown keys,
  fail on a type mismatch for a known key; a field tagged with a dash is
  never populated. Encoding follows json.Marshal: fields in struct order
  under their tags, the dash-tagged field omitted.
* Byte strings (for the form-encoded payloads and net/url.QueryEscape,
  which operate on bytes) are lists of naturals below 256.
-/

namespace A0daf

/-- One second in nanoseconds, mirroring Go's time.Second. -/
def nsPerSecond : Int := 1000000000

/-- DeviceCodeResponse from auth.go lines 40-48. ExpiresAt (tagged with a
dash, so absent from the wire format) is a timestamp in nanoseconds. -/
structure DeviceCodeResponse where
  deviceCode : String
  userCode : String
  verificationURI : String
  verificationURIComplete : String
  expiresIn : Int
  interval : Int
  expiresAt : Int
deriving Repr, DecidableEq

/-- TokenResponse from auth.go lines 53-59. -/
structure TokenResponse where
  accessToken : String
  refreshToken : String
  idToken : String
  tokenType : String
  expiresIn : Int
deriving Repr, DecidableEq

/-- ErrorResponse from auth.go lines 64-67. -/
structure ErrorResponse where
  error : String
  errorDescription : String
deriving Repr, DecidableEq

/-- A JSON scalar value as used by the wire formats here. -/
inductive JsonVal where
  | str (s : String)
  | num (n : Int)
deriving Repr, DecidableEq

/-- A response body: a JSON object document, or bytes that fail to
unmarshal into a struct. -/
inductive RawBody where
  | jsonObj (obj : List (String × JsonVal))
  | malformed (raw : String)
deriving Repr, DecidableEq

/-- Result of one call to postForm (auth.go lines 235-253): a transport
failure is returned as status 0, nil body, non-nil error. -/
inductive PostOutcome where
  | failure
  | response (status : Nat) (body : RawBody)
deriving Repr, DecidableEq

/-- Status code of a postForm result as seen by the callers. -/
def PostOutcome.statusCode : PostOutcome → Nat
  | .failure => 0
  | .response s _ => s

/-- Body of a postForm result as seen by the callers; a failed request's
nil body unmarshals like any malformed body and prints as the empty
string. -/
def PostOutcome.body : PostOutcome → RawBody
  | .failure => .malformed ""
  | .response _ b => b

/-- Zero value of TokenResponse, the Unmarshal starting point. -/
def zeroTokenResponse : TokenResponse :=
  { accessToken := "", refreshToken := "", idToken := "", tokenType := "", expiresIn := 0 }

/-- Apply one JSON key/value pair to a TokenResponse being decoded,
per the json tags on auth.go lines 53-59. -/
def setTokenField (t : TokenResponse) (k : String) (v : JsonVal) : Option TokenResponse :=
  if k = "access_token" then
    match v with
    | .str s => some { t with accessToken := s }
    | _ => none
  else if k = "refresh_token" then
    match v with
    | .str s => some { t with refreshToken := s }
    | _ => none
  else if k = "id_token" then
    match v with
    | .str s => some { t with idToken := s }
    | _ => none
  else if k = "token_type" then
    match v with
    | .str s => some { t with tokenType := s }
    | _ => none
  else if k = "expires_in" then
    match v with
    | .num n => some { t with expiresIn := n }
    | _ => none
  else
    some t

/-- Unmarshal a JSON object into a TokenResponse. -/
def decodeTokenObj (obj : List (String × JsonVal)) : Option TokenResponse :=
  obj.foldlM (fun t kv => setTokenField t kv.1 kv.2) zeroTokenResponse

/-- Unmarshal a body into a TokenResponse, as json.Unmarshal at
auth.go line 212. -/
def decodeTokenBody : RawBody → Option TokenResponse
  | .jsonObj obj => decodeTokenObj obj
  | .malformed _ => none

/-- Zero value of ErrorResponse. -/
def zeroErrorResponse : ErrorResponse := { error := "", errorDescription := "" }

/-- Apply one JSON key/value pair to an ErrorResponse being decoded,
per the json tags on auth.go lines 64-67. -/
def setErrorField (e : ErrorResponse) (k : String) (v : JsonVal) : Option ErrorResponse :=
  if k = "error" then
    match v with
    | .str s => some { e with error := s }
    | _ => none
  else if k = "error_description" then
    match v with
    | .str s => some { e with errorDescription := s }
    | _ => none
  else
    some e

/-- Unmarshal a JSON object into an ErrorResponse. -/
def decodeErrorObj (obj : List (String × JsonVal)) : Option ErrorResponse :=
  obj.foldlM (fun e kv => setErrorField e kv.1 kv.2) zeroErrorResponse

/-- Unmarshal a body into an ErrorResponse, as json.Unmarshal at
auth.go line 223. -/
def decodeErrorBody : RawBody → Option ErrorResponse
  | .jsonObj obj => decodeErrorObj obj
  | .malformed _ => none

/-- Zero value of DeviceCodeResponse; the zero time is 0 ns. -/
def zeroDeviceCodeResponse : DeviceCodeResponse :=
  { deviceCode := "", userCode := "", verificationURI := "", verificationURIComplete := ""
    expiresIn := 0, interval := 0, expiresAt := 0 }

/-- Apply one JSON key/value pair to a DeviceCodeResponse being decoded,
per the json tags on auth.go lines 40-48; the dash-tagged ExpiresAt is
never populated from the wire. -/
def setDeviceCodeField (d : DeviceCodeResponse) (k : String) (v : JsonVal) :
    Option DeviceCodeResponse :=
  if k = "device_code" then
    match v with
    | .str s => some { d with deviceCode := s }
    | _ => none
  else if k = "user_code" then
    match v with
    | .str s => some { d with userCode := s }
    | _ => none
  else if k = "verification_uri" then
    match v with
    | .str s => some { d with verificationURI := s }
    | _ => none
  else if k = "verification_uri_complete" then
    match v with
    | .str s => some { d with verificationURIComplete := s }
    | _ => none
  else if k = "expires_in" then
    match v with
    | .num n => some { d with expiresIn := n }
    | _ => none
  else if k = "interval" then
    match v with
    | .num n => some { d with interval := n }
    | _ => none
  else
    some d

/-- Unmarshal a JSON object into a DeviceCodeResponse. -/
def decodeDeviceCodeObj (obj : List (String × JsonVal)) : Option DeviceCodeResponse :=
  obj.foldlM (fun d kv => setDeviceCodeField d kv.1 kv.2) zeroDeviceCodeResponse

/-- Unmarshal a body into a DeviceCodeResponse, as json.Unmarshal at
auth.go line 181. -/
def decodeDeviceCodeBody : RawBody → Option DeviceCodeResponse
  | .jsonObj obj => decodeDeviceCodeObj obj
  | .malformed _ => none

/-- Marshal a TokenResponse to its wire JSON object (json.Marshal:
fields in struct order under their tags). -/
def encodeTokenResponse (t : TokenResponse) : List (String × JsonVal) :=
  [("access_token", .str t.accessToken), ("refresh_token", .str t.refreshToken),
   ("id_token", .str t.idToken), ("token_type", .str t.tokenType),
   ("expires_in", .num t.expiresIn)]

/-- Marshal a DeviceCodeResponse to its wire JSON object; the dash-tagged
ExpiresAt is omitted. -/
def encodeDeviceCodeResponse (d : DeviceCodeResponse) : List (String × JsonVal) :=
  [("device_code", .str d.deviceCode), ("user_code", .str d.userCode),
   ("verification_uri", .str d.verificationURI),
   ("verification_uri_complete", .str d.verificationURIComplete),
   ("expires_in", .num d.expiresIn), ("interval", .num d.interval)]

/-- Terminal outcome of PollToken (auth.go lines 193-233): the returned
token, or one of the error values it can return. -/
inductive PollResult where
  | success (t : TokenResponse)
  | expired (expiresIn : Int)
  | apiError (statusCode : Nat) (body : ErrorResponse)
  | decodeFailure
  | requestFailed (body : RawBody)
deriving Repr, DecidableEq

/-- Observable behaviour of a PollToken run: the result, how many HTTP
requests were issued, and the durations (ns) passed to the injected
sleep, in order. -/
structure PollOutput where
  result : PollResult
  requests : Nat
  sleeps : List Int
deriving Repr, DecidableEq

/-- The polling loop of PollToken (auth.go lines 201-232). The injected
clock is modelled by now (the value returned by the i-th timeNow call
inside the loop) and the transport by respond (the outcome of the i-th
postForm call); i is the current iteration index and fuel bounds the
number of iterations evaluated, none meaning the loop was still running.
Per iteration: expiration is checked first (line 202); then one request
is issued; status 200 returns the decoded token or a decode failure;
a status outside 4xx (including the 0 of a transport failure) returns a
generic failure; a 4xx body is decoded, authorization_pending sleeps
Interval seconds and continues, any other code returns an API error. -/
def pollLoop (now : Nat → Int) (respond : Nat → PostOutcome) (dc : DeviceCodeResponse)
    (i : Nat) : Nat → Option PollOutput
  | 0 => none
  | fuel + 1 =>
    if dc.expiresAt ≤ now i then
      some { result := .expired dc.expiresIn, requests := 0, sleeps := [] }
    else
      let status := (respond i).statusCode
      let body := (respond i).body
      if status = 200 then
        match decodeTokenBody body with
        | none => some { result := .decodeFailure, requests := 1, sleeps := [] }
        | some t => some { result := .success t, requests := 1, sleeps := [] }
      else if status / 100 ≠ 4 then
        some { result := .requestFailed body, requests := 1, sleeps := [] }
      else
        match decodeErrorBody body with
        | none => some { result := .decodeFailure, requests := 1, sleeps := [] }
        | some er =>
          if er.error ≠ "authorization_pending" then
            some { result := .apiError status er, requests := 1, sleeps := [] }
          else
            match pollLoop now respond dc (i + 1) fuel with
            | none => none
            | some out =>
              some { result := out.result, requests := out.requests + 1,
                     sleeps := dc.interval * nsPerSecond :: out.sleeps }

/-- Environment of one FetchDeviceCode call: the outcome of its single
postForm call and the value the injected timeNow returns when sampled on
auth.go line 164, immediately after postForm. -/
structure FetchEnv where
  post : PostOutcome
  nowAfterPost : Int
deriving Repr, DecidableEq

/-- Error outcomes of FetchDeviceCode (auth.go lines 156-188). -/
inductive FetchError where
  | transport
  | apiError (statusCode : Nat) (body : ErrorResponse)
  | decodeFailure
  | requestFailed (body : RawBody)
deriving Repr, DecidableEq

/-- FetchDeviceCode (auth.go lines 156-188), from the postForm call on:
a transport error propagates; a non-200 status yields an APIError when
4xx with a decodable body, a decode failure when 4xx otherwise, and a
generic failure otherwise; a 200 body is unmarshalled and ExpiresAt is
set to now plus ExpiresIn seconds, with now the single timeNow sample
taken after the response returned. -/
def fetchDeviceCode (env : FetchEnv) : Except FetchError DeviceCodeResponse :=
  match env.post with
  | .failure => .error .transport
  | .response status body =>
    if status ≠ 200 then
      if status / 100 = 4 then
        match decodeErrorBody body with
        | none => .error .decodeFailure
        | some er => .error (.apiError status er)
      else
        .error (.requestFailed body)
    else
      match decodeDeviceCodeBody body with
      | none => .error .decodeFailure
      | some dc => .ok { dc with expiresAt := env.nowAfterPost + dc.expiresIn * nsPerSecond }

/-- Value held by the timeNow field of a flow: either the default
time.Now installed at line 96, or an injected clock. -/
inductive TimeNowFn where
  | realNow
  | injected (f : Nat → Int)

/-- Value held by the timeSleep field of a flow: either the default
time.Sleep installed at line 97, or an injected sleep function. -/
inductive TimeSleepFn where
  | realSleep
  | injected

/-- DeviceAuthFlow from auth.go lines 29-34. -/
structure DeviceAuthFlow where
  baseURL : String
  clientID : String
  timeNow : TimeNowFn
  timeSleep : TimeSleepFn

/-- The four DeviceAuthFlowOption implementations in the repository
(auth.go lines 119-145). -/
inductive DeviceAuthFlowOption where
  | withBaseURL (s : String)
  | withClientID (s : String)
  | withTimeNow (f : Nat → Int)
  | withTimeSleep

/-- The apply method of each option (auth.go lines 121-145); each of the
four implementations mutates a field and returns a nil error. -/
def applyOption (daf : DeviceAuthFlow) : DeviceAuthFlowOption → DeviceAuthFlow
  | .withBaseURL s => { daf with baseURL := s }
  | .withClientID s => { daf with clientID := s }
  | .withTimeNow f => { daf with timeNow := .injected f }
  | .withTimeSleep => { daf with timeSleep := .injected }

/-- The initial flow value built on auth.go lines 95-98 with the real
clock and sleep, before options are applied. -/
def initialFlow : DeviceAuthFlow :=
  { baseURL := "", clientID := "", timeNow := .realNow, timeSleep := .realSleep }

/-- NewDeviceAuthFlow (auth.go lines 94-117): apply the options in order
to the defaulted instance, then fail if the base URL or the client ID is
still empty. -/
def NewDeviceAuthFlow (opts : List DeviceAuthFlowOption) : Except String DeviceAuthFlow :=
  let daf := opts.foldl applyOption initialFlow
  if daf.baseURL = "" then
    .error "BaseURL is not given, use WithBaseURL()"
  else if daf.clientID = "" then
    .error "ClientID is not given, use WithClientID()"
  else
    .ok daf

/-- Byte predicate of net/url.shouldEscape in query-component mode:
everything is escaped except ASCII letters, digits, and the four marks
dash, underscore, dot, tilde (space is handled separately). -/
def shouldEscape (b : Nat) : Bool :=
  !((65 ≤ b && b ≤ 90) || (97 ≤ b && b ≤ 122) || (48 ≤ b && b ≤ 57) ||
    b == 45 || b == 95 || b == 46 || b == 126)

/-- Upper-case hex digit byte for a value below 16, as net/url.escape. -/
def hexUpperDigit (d : Nat) : Nat :=
  if d < 10 then 48 + d else 55 + d

/-- net/url.QueryEscape over a byte string: space becomes plus, safe
bytes pass through, every other byte becomes percent and two upper-case
hex digits. -/
def queryEscape : List Nat → List Nat
  | [] => []
  | b :: rest =>
    if b = 32 then
      43 :: queryEscape rest
    else if shouldEscape b then
      37 :: hexUpperDigit (b / 16) :: hexUpperDigit (b % 16) :: queryEscape rest
    else
      b :: queryEscape rest

/-- Hex digit value of a byte, as net/url.unhex (accepting both cases). -/
def unhexDigit (c : Nat) : Option Nat :=
  if 48 ≤ c && c ≤ 57 then some (c - 48)
  else if 65 ≤ c && c ≤ 70 then some (c - 55)
  else if 97 ≤ c && c ≤ 102 then some (c - 87)
  else none

/-- net/url.QueryUnescape over a byte string: percent introduces two hex
digits (failing otherwise), plus becomes space, any other byte passes
through. -/
def queryUnescape : List Nat → Option (List Nat)
  | [] => some []
  | b :: rest =>
    if b = 37 then
      match rest with
      | h :: l :: rest2 =>
        match unhexDigit h, unhexDigit l with
        | some hv, some lv => (queryUnescape rest2).map fun t => (hv * 16 + lv) :: t
        | _, _ => none
      | _ => none
    else if b = 43 then
      (queryUnescape rest).map fun t => 32 :: t
    else
      (queryUnescape rest).map fun t => b :: t

/-- Bytes of an ASCII string literal. -/
def asciiBytes (s : String) : List Nat :=
  s.data.map Char.toNat

/-- The form body built by FetchDeviceCode on auth.go line 161: scope and
audience go through neturl.QueryEscape, the client ID is interpolated
verbatim. -/
def deviceCodePayload (clientID scope audience : List Nat) : List Nat :=
  asciiBytes "client_id=" ++ clientID ++
  asciiBytes "&scope=" ++ queryEscape scope ++
  asciiBytes "&audience=" ++ queryEscape audience

/-- Concrete fetch environment used as a test vector: a 200 device-code
response (the scenario of the repository's own test) observed with the
clock at 1000 ns. -/
def sampleFetchEnv : FetchEnv :=
  { post := .response 200 (.jsonObj
      [("device_code", .str "dc"), ("user_code", .str "123456"),
       ("verification_uri", .str "https://example.com/activate"),
       ("verification_uri_complete", .str "https://example.com/activate/?user_code=123456"),
       ("expires_in", .num 900), ("interval", .num 5)]),
    nowAfterPost := 1000 }

/-- Bundle fetchDeviceCode returns in sampleFetchEnv; its ExpiresAt is
1000 plus 900 seconds in nanoseconds. -/
def sampleFetchBundle : DeviceCodeResponse :=
  { deviceCode := "dc", userCode := "123456",
    verificationURI := "https://example.com/activate",
    verificationURIComplete := "https://example.com/activate/?user_code=123456",
    expiresIn := 900, interval := 5, expiresAt := 900000001000 }

/-- Modelled from the spec: the device-code form body with client_id,
scope, and audience all percent-encoded, following the words of the
wire-protocol section; used only to compare against the body the source
actually builds. -/
def specDeviceCodePayload (clientID scope audience : List Nat) : List Nat :=
  asciiBytes "client_id=" ++ queryEscape clientID ++
  asciiBytes "&scope=" ++ queryEscape scope ++
  asciiBytes "&audience=" ++ queryEscape audience

/-- Condition under which one poll iteration continues to the next
(auth.go lines 210-231 falling through to the sleep): a 4xx status whose
body decodes to the authorization_pending error code. -/
def pendingOutcome (o : PostOutcome) : Bool :=
  match o with
  | .failure => false
  | .response s body =>
    (decide (¬ s = 200) && decide (s / 100 = 4)) &&
      (match decodeErrorBody body with
       | some er => decide (er.error = "authorization_pending")
       | none => false)

/-- Concrete pending body used as a test vector. -/
def samplePendingBody : RawBody :=
  .jsonObj [("error", .str "authorization_pending"), ("error_description", .str "pending")]

/-- Concrete token used as a test vector. -/
def sampleToken : TokenResponse :=
  { accessToken := "at", refreshToken := "rt", idToken := "it",
    tokenType := "Bearer", expiresIn := 86400 }

/-- Concrete responder used as a test vector: two pending responses then
a successful token response. -/
def samplePollRespond : Nat → PostOutcome := fun i =>
  if i < 2 then .response 403 samplePendingBody
  else .response 200 (.jsonObj (encodeTokenResponse sampleToken))

/-- Concrete device-code bundle used as a test vector for polling. -/
def samplePollBundle : DeviceCodeResponse :=
  { deviceCode := "dcode", userCode := "", verificationURI := "", verificationURIComplete := ""
    expiresIn := 20, interval := 5, expiresAt := 100 }

/-- Concrete option list used as a test vector for construction. -/
def sampleFlowOpts : List DeviceAuthFlowOption :=
  [.withBaseURL "https://example.us.auth0.com", .withClientID "clientID"]

/-- Flow NewDeviceAuthFlow builds from sampleFlowOpts. -/
def sampleFlow : DeviceAuthFlow :=
  { baseURL := "https://example.us.auth0.com", clientID := "clientID",
    timeNow := .realNow, timeSleep := .realSleep }

/-- C9: encoding a TokenResponse or a DeviceCodeResponse to its wire JSON
object and decoding the result back is lossless for every field defined
in the wire format; the dash-tagged ExpiresAt of DeviceCodeResponse is
not a wire field and decodes to the zero time. -/
theorem wire_json_roundtrip :
    (∀ t : TokenResponse,
      decodeTokenBody (RawBody.jsonObj (encodeTokenResponse t)) = some t) ∧
    (∀ d : DeviceCodeResponse, ∃ d2,
      decodeDeviceCodeBody (RawBody.jsonObj (encodeDeviceCodeResponse d)) = some d2 ∧
      d2.deviceCode = d.deviceCode ∧ d2.userCode = d.userCode ∧
      d2.verificationURI = d.verificationURI ∧
      d2.verificationURIComplete = d.verificationURIComplete ∧
      d2.expiresIn = d.expiresIn ∧ d2.interval = d.interval) := by
  constructor
  · intro t
    rfl
  · intro d
    exact ⟨{ d with expiresAt := 0 }, rfl, rfl, rfl, rfl, rfl, rfl, rfl⟩

/-- C1: a PollToken call on a bundle already expired at the first clock
sample returns ExpiredError with the bundle's original ExpiresIn, having
issued zero HTTP requests and zero sleeps. -/
theorem pollToken_expired_at_entry (now : Nat → Int) (respond : Nat → PostOutcome)
    (dc : DeviceCodeResponse) (fuel : Nat) (h : dc.expiresAt ≤ now 0) :
    pollLoop now respond dc 0 (fuel + 1) =
      some { result := .expired dc.expiresIn, requests := 0, sleeps := [] } := by
  simp [pollLoop, h]

/-- Witness for C1 at a concrete expired bundle. -/
theorem pollToken_expired_at_entry_witness :
    pollLoop (fun _ => (5 : Int)) (fun _ => PostOutcome.failure)
      { deviceCode := "", userCode := "", verificationURI := "", verificationURIComplete := ""
        expiresIn := 20, interval := 5, expiresAt := 3 } 0 1 =
      some { result := .expired 20, requests := 0, sleeps := [] } :=
  pollToken_expired_at_entry _ _ _ 0 (by decide)

/-- C3: whenever fetchDeviceCode succeeds, the returned bundle's
ExpiresAt equals the timeNow sample taken immediately after the HTTP
response plus ExpiresIn seconds; the sample is taken once, after the
transport call, so the result does not depend on how long the call
took. -/
theorem fetchDeviceCode_expiresAt (env : FetchEnv) (dc : DeviceCodeResponse)
    (h : fetchDeviceCode env = .ok dc) :
    dc.expiresAt = env.nowAfterPost + dc.expiresIn * nsPerSecond := by
  unfold fetchDeviceCode at h
  split at h
  · exact absurd h (by simp)
  · split at h
    · split at h
      · split at h <;> simp at h
      · simp at h
    · split at h
      · simp at h
      · simp only [Except.ok.injEq] at h
        rw [← h]

/-- Witness for C3 at a concrete successful device-code response. -/
theorem fetchDeviceCode_expiresAt_witness :
    fetchDeviceCode sampleFetchEnv = .ok sampleFetchBundle ∧
    sampleFetchBundle.expiresAt =
      sampleFetchEnv.nowAfterPost + sampleFetchBundle.expiresIn * nsPerSecond :=
  ⟨rfl, fetchDeviceCode_expiresAt sampleFetchEnv sampleFetchBundle rfl⟩

/-- C10: a 200 response whose body fails to unmarshal as a TokenResponse
makes the poll loop return a decode failure at once: one request, no
sleep, no retry. -/
theorem pollToken_decode_failure_on_200 (now : Nat → Int) (respond : Nat → PostOutcome)
    (dc : DeviceCodeResponse) (i fuel : Nat) (body : RawBody)
    (hnow : now i < dc.expiresAt)
    (hresp : respond i = .response 200 body)
    (hdec : decodeTokenBody body = none) :
    pollLoop now respond dc i (fuel + 1) =
      some { result := .decodeFailure, requests := 1, sleeps := [] } := by
  have hlt : ¬ dc.expiresAt ≤ now i := not_le.mpr hnow
  simp [pollLoop, hlt, hresp, PostOutcome.statusCode, PostOutcome.body, hdec]

/-- Witness for C10 at a concrete malformed success body. -/
theorem pollToken_decode_failure_on_200_witness :
    pollLoop (fun _ => (0 : Int))
      (fun _ => PostOutcome.response 200 (RawBody.malformed "oops"))
      { deviceCode := "", userCode := "", verificationURI := "", verificationURIComplete := ""
        expiresIn := 20, interval := 5, expiresAt := 100 } 0 4 =
      some { result := .decodeFailure, requests := 1, sleeps := [] } :=
  pollToken_decode_failure_on_200 _ _ _ 0 3 (RawBody.malformed "oops")
    (by decide) rfl rfl

/-- C5: a 4xx response whose decoded error code is not
authorization_pending makes the poll loop return an APIError carrying
that status and body at once: one request, no sleep, no retry. -/
theorem pollToken_api_error (now : Nat → Int) (respond : Nat → PostOutcome)
    (dc : DeviceCodeResponse) (i fuel : Nat) (s : Nat) (body : RawBody) (er : ErrorResponse)
    (hnow : now i < dc.expiresAt)
    (hresp : respond i = .response s body)
    (hs1 : 400 ≤ s) (hs2 : s ≤ 499)
    (hdec : decodeErrorBody body = some er)
    (hner : er.error ≠ "authorization_pending") :
    pollLoop now respond dc i (fuel + 1) =
      some { result := .apiError s er, requests := 1, sleeps := [] } := by
  have hlt : ¬ dc.expiresAt ≤ now i := not_le.mpr hnow
  have h200 : ¬ s = 200 := by omega
  have h4 : s / 100 = 4 := by omega
  simp [pollLoop, hlt, hresp, PostOutcome.statusCode, PostOutcome.body, h200, h4, hdec, hner]

/-- Witness for C5 at a concrete rejected poll. -/
theorem pollToken_api_error_witness :
    pollLoop (fun _ => (0 : Int))
      (fun _ => PostOutcome.response 403 (RawBody.jsonObj
        [("error", .str "access_denied"), ("error_description", .str "denied")]))
      { deviceCode := "", userCode := "", verificationURI := "", verificationURIComplete := ""
        expiresIn := 20, interval := 5, expiresAt := 100 } 0 4 =
      some { result := .apiError 403 { error := "access_denied", errorDescription := "denied" },
             requests := 1, sleeps := [] } :=
  pollToken_api_error _ _ _ 0 3 403 _ _
    (by decide) rfl (by decide) (by decide) rfl (by decide)

/-- C6: a poll response whose status is neither 200 nor 4xx, including
the status 0 produced by a transport failure with its nil body, makes
the poll loop return the generic failure at once: one request, no
sleep, no retry; a transport failure is seen as status 0 with an empty
body. -/
theorem pollToken_non4xx_failure (now : Nat → Int) (respond : Nat → PostOutcome)
    (dc : DeviceCodeResponse) (i fuel : Nat)
    (hnow : now i < dc.expiresAt)
    (hcase : respond i = .failure ∨
      ∃ s body, respond i = .response s body ∧ s ≠ 200 ∧ s / 100 ≠ 4) :
    pollLoop now respond dc i (fuel + 1) =
      some { result := .requestFailed (respond i).body, requests := 1, sleeps := [] } ∧
    (respond i = .failure →
      (respond i).statusCode = 0 ∧ (respond i).body = .malformed "") := by
  have hlt : ¬ dc.expiresAt ≤ now i := not_le.mpr hnow
  constructor
  · rcases hcase with hfail | ⟨s, body, hresp, h200, h4⟩
    · simp [pollLoop, hlt, hfail, PostOutcome.statusCode, PostOutcome.body]
    · simp [pollLoop, hlt, hresp, PostOutcome.statusCode, PostOutcome.body, h200, h4]
  · intro hfail
    simp [hfail, PostOutcome.statusCode, PostOutcome.body]

/-- Witness for C6 at a concrete transport failure during polling. -/
theorem pollToken_non4xx_failure_witness :
    pollLoop (fun _ => (0 : Int)) (fun _ => PostOutcome.failure)
      { deviceCode := "", userCode := "", verificationURI := "", verificationURIComplete := ""
        expiresIn := 20, interval := 5, expiresAt := 100 } 0 4 =
      some { result := .requestFailed (.malformed ""), requests := 1, sleeps := [] } :=
  (pollToken_non4xx_failure _ _ _ 0 3 (by decide) (Or.inl rfl)).1

/-- Auxiliary: from any loop index, a run of N pending 4xx iterations
followed by a 200 token response ends with the decoded token, N plus one
requests, and N sleeps of Interval seconds each. -/
theorem pollLoop_pending_prefix (now : Nat → Int) (respond : Nat → PostOutcome)
    (dc : DeviceCodeResponse) (t : TokenResponse) :
    ∀ N j fuel : Nat, N < fuel →
    (∀ k, k ≤ N → now (j + k) < dc.expiresAt) →
    (∀ k, k < N → ∃ s body er, respond (j + k) = .response s body ∧
        400 ≤ s ∧ s ≤ 499 ∧ decodeErrorBody body = some er ∧
        er.error = "authorization_pending") →
    (∃ body, respond (j + N) = .response 200 body ∧ decodeTokenBody body = some t) →
    pollLoop now respond dc j fuel =
      some { result := .success t, requests := N + 1,
             sleeps := List.replicate N (dc.interval * nsPerSecond) } := by
  intro N
  induction N with
  | zero =>
    intro j fuel hfuel hnow hpend hsucc
    obtain ⟨body, hresp, hdec⟩ := hsucc
    obtain ⟨fuel, rfl⟩ : ∃ f, fuel = f + 1 := ⟨fuel - 1, by omega⟩
    have hlt : ¬ dc.expiresAt ≤ now j := not_le.mpr (by simpa using hnow 0 (le_refl 0))
    rw [Nat.add_zero] at hresp
    simp [pollLoop, hlt, hresp, PostOutcome.statusCode, PostOutcome.body, hdec]
  | succ N ih =>
    intro j fuel hfuel hnow hpend hsucc
    obtain ⟨fuel, rfl⟩ : ∃ f, fuel = f + 1 := ⟨fuel - 1, by omega⟩
    obtain ⟨s, body, er, hresp, hs1, hs2, hdec, her⟩ := hpend 0 (Nat.succ_pos N)
    rw [Nat.add_zero] at hresp
    have hlt : ¬ dc.expiresAt ≤ now j := not_le.mpr (by simpa using hnow 0 (Nat.zero_le _))
    have h200 : ¬ s = 200 := by omega
    have h4 : s / 100 = 4 := by omega
    have hrec : pollLoop now respond dc (j + 1) fuel =
        some { result := .success t, requests := N + 1,
               sleeps := List.replicate N (dc.interval * nsPerSecond) } := by
      apply ih (j + 1) fuel (by omega)
      · intro k hk
        have hx := hnow (k + 1) (by omega)
        rwa [show j + (k + 1) = j + 1 + k by omega] at hx
      · intro k hk
        have hx := hpend (k + 1) (by omega)
        rwa [show j + (k + 1) = j + 1 + k by omega] at hx
      · have hx := hsucc
        rwa [show j + (N + 1) = j + 1 + N by omega] at hx
    simp [pollLoop, hlt, hresp, PostOutcome.statusCode, PostOutcome.body, h200, h4, hdec,
      her, hrec, List.replicate_succ]

/-- C2: if the first N responses are 4xx authorization_pending, the next
is a 200 token response, and no expiration check before any of those
requests triggers, PollToken sleeps exactly N times of Interval seconds
each, issues N plus one requests, and returns the decoded token. -/
theorem pollToken_pending_then_success (now : Nat → Int) (respond : Nat → PostOutcome)
    (dc : DeviceCodeResponse) (t : TokenResponse) (N fuel : Nat)
    (hfuel : N < fuel)
    (hnow : ∀ k, k ≤ N → now k < dc.expiresAt)
    (hpend : ∀ k, k < N → ∃ s body er, respond k = .response s body ∧
        400 ≤ s ∧ s ≤ 499 ∧ decodeErrorBody body = some er ∧
        er.error = "authorization_pending")
    (hsucc : ∃ body, respond N = .response 200 body ∧ decodeTokenBody body = some t) :
    pollLoop now respond dc 0 fuel =
      some { result := .success t, requests := N + 1,
             sleeps := List.replicate N (dc.interval * nsPerSecond) } := by
  apply pollLoop_pending_prefix now respond dc t N 0 fuel hfuel
  · intro k hk; simpa using hnow k hk
  · intro k hk; simpa using hpend k hk
  · simpa using hsucc

/-- Witness for C2: two pending responses then a success give exactly
two sleeps of five seconds and the token on the third request. -/
theorem pollToken_pending_then_success_witness :
    pollLoop (fun _ => (0 : Int)) samplePollRespond samplePollBundle 0 3 =
      some { result := .success sampleToken, requests := 3,
             sleeps := List.replicate 2 (samplePollBundle.interval * nsPerSecond) } := by
  apply pollToken_pending_then_success _ _ _ _ 2 3 (by omega)
  · intro k hk
    show (0 : Int) < samplePollBundle.expiresAt
    decide
  · intro k hk
    refine ⟨403, samplePendingBody,
      { error := "authorization_pending", errorDescription := "pending" }, ?_, by omega, by omega, rfl, rfl⟩
    simp [samplePollRespond, hk]
  · exact ⟨.jsonObj (encodeTokenResponse sampleToken), by simp [samplePollRespond], rfl⟩

/-- C7: pollLoop iterates again exactly when the response is a 4xx
authorization_pending one and the deadline has not passed; in every
other situation it returns at once with no sleep and at most one
request; and under perpetually pending responses before the deadline it
never returns, for any iteration bound, so there is no retry limit. -/
theorem pollToken_only_pending_retries :
    (∀ (now : Nat → Int) (respond : Nat → PostOutcome) (dc : DeviceCodeResponse) (i fuel : Nat),
      now i < dc.expiresAt → pendingOutcome (respond i) = true →
      pollLoop now respond dc i (fuel + 1) =
        (pollLoop now respond dc (i + 1) fuel).map fun out =>
          { result := out.result, requests := out.requests + 1,
            sleeps := dc.interval * nsPerSecond :: out.sleeps }) ∧
    (∀ (now : Nat → Int) (respond : Nat → PostOutcome) (dc : DeviceCodeResponse) (i fuel : Nat),
      ¬ (now i < dc.expiresAt ∧ pendingOutcome (respond i) = true) →
      ∃ out, pollLoop now respond dc i (fuel + 1) = some out ∧
        out.sleeps = [] ∧ out.requests ≤ 1) ∧
    (∀ (now : Nat → Int) (respond : Nat → PostOutcome) (dc : DeviceCodeResponse),
      (∀ k, now k < dc.expiresAt) → (∀ k, pendingOutcome (respond k) = true) →
      ∀ i fuel, pollLoop now respond dc i fuel = none) := by
  refine ⟨?_, ?_, ?_⟩
  · intro now respond dc i fuel hnow hp
    have hlt : ¬ dc.expiresAt ≤ now i := not_le.mpr hnow
    cases hr : respond i with
    | failure => rw [hr] at hp; simp [pendingOutcome] at hp
    | response s body =>
      rw [hr] at hp
      simp only [pendingOutcome, Bool.and_eq_true, decide_eq_true_eq] at hp
      obtain ⟨⟨h200, h4⟩, hrest⟩ := hp
      cases hdec : decodeErrorBody body with
      | none => rw [hdec] at hrest; simp at hrest
      | some er =>
        rw [hdec] at hrest
        simp only [decide_eq_true_eq] at hrest
        cases hres : pollLoop now respond dc (i + 1) fuel with
        | none =>
          simp [pollLoop, hlt, hr, PostOutcome.statusCode, PostOutcome.body, h200, h4,
            hdec, hrest, hres]
        | some out =>
          simp [pollLoop, hlt, hr, PostOutcome.statusCode, PostOutcome.body, h200, h4,
            hdec, hrest, hres]
  · intro now respond dc i fuel hnot
    by_cases hexp : dc.expiresAt ≤ now i
    · refine ⟨{ result := .expired dc.expiresIn, requests := 0, sleeps := [] }, ?_, rfl, ?_⟩
      · simp [pollLoop, hexp]
      · exact Nat.zero_le 1
    · have hnp : ¬ pendingOutcome (respond i) = true := fun hp => hnot ⟨not_le.mp hexp, hp⟩
      cases hr : respond i with
      | failure =>
        refine ⟨{ result := .requestFailed (.malformed ""), requests := 1, sleeps := [] }, ?_, rfl, le_refl 1⟩
        simp [pollLoop, hexp, hr, PostOutcome.statusCode, PostOutcome.body]
      | response s body =>
        rw [hr] at hnp
        by_cases h200 : s = 200
        · subst h200
          cases hdec : decodeTokenBody body with
          | none =>
            refine ⟨{ result := .decodeFailure, requests := 1, sleeps := [] }, ?_, rfl, le_refl 1⟩
            simp [pollLoop, hexp, hr, PostOutcome.statusCode, PostOutcome.body, hdec]
          | some t =>
            refine ⟨{ result := .success t, requests := 1, sleeps := [] }, ?_, rfl, le_refl 1⟩
            simp [pollLoop, hexp, hr, PostOutcome.statusCode, PostOutcome.body, hdec]
        · by_cases h4 : s / 100 = 4
          · cases hdec : decodeErrorBody body with
            | none =>
              refine ⟨{ result := .decodeFailure, requests := 1, sleeps := [] }, ?_, rfl, le_refl 1⟩
              simp [pollLoop, hexp, hr, PostOutcome.statusCode, PostOutcome.body, h200, h4, hdec]
            | some er =>
              have hner : ¬ er.error = "authorization_pending" := by
                intro he
                exact hnp (by simp [pendingOutcome, hdec, h200, h4, he])
              refine ⟨{ result := .apiError s er, requests := 1, sleeps := [] }, ?_, rfl, le_refl 1⟩
              simp [pollLoop, hexp, hr, PostOutcome.statusCode, PostOutcome.body, h200, h4, hdec, hner]
          · refine ⟨{ result := .requestFailed body, requests := 1, sleeps := [] }, ?_, rfl, le_refl 1⟩
            simp [pollLoop, hexp, hr, PostOutcome.statusCode, PostOutcome.body, h200, h4]
  · intro now respond dc hnow hpend i fuel
    induction fuel generalizing i with
    | zero => rfl
    | succ fuel ih =>
      have hlt : ¬ dc.expiresAt ≤ now i := not_le.mpr (hnow i)
      have hp := hpend i
      cases hr : respond i with
      | failure => rw [hr] at hp; simp [pendingOutcome] at hp
      | response s body =>
        rw [hr] at hp
        simp only [pendingOutcome, Bool.and_eq_true, decide_eq_true_eq] at hp
        obtain ⟨⟨h200, h4⟩, hrest⟩ := hp
        cases hdec : decodeErrorBody body with
        | none => rw [hdec] at hrest; simp at hrest
        | some er =>
          rw [hdec] at hrest
          simp only [decide_eq_true_eq] at hrest
          simp [pollLoop, hlt, hr, PostOutcome.statusCode, PostOutcome.body, h200, h4,
            hdec, hrest, ih]

/-- Witness for C7: perpetually pending responses before the deadline
exhaust any iteration bound. -/
theorem pollToken_only_pending_retries_witness :
    pollLoop (fun _ => (0 : Int)) (fun _ => PostOutcome.response 403 samplePendingBody)
      samplePollBundle 0 5 = none :=
  pollToken_only_pending_retries.2.2 _ _ _
    (fun _ => by decide) (fun _ => by decide) 0 5

/-- Auxiliary: folding options that never set the time source leaves the
timeNow field unchanged. -/
theorem foldl_timeNow_unchanged (opts : List DeviceAuthFlowOption) :
    ∀ daf0 : DeviceAuthFlow, (∀ f, DeviceAuthFlowOption.withTimeNow f ∉ opts) →
    (opts.foldl applyOption daf0).timeNow = daf0.timeNow := by
  induction opts with
  | nil => intro daf0 h; rfl
  | cons o rest ih =>
    intro daf0 h
    have hrest : ∀ f, DeviceAuthFlowOption.withTimeNow f ∉ rest :=
      fun f hf => h f (List.mem_cons_of_mem o hf)
    rw [List.foldl_cons, ih _ hrest]
    cases o with
    | withBaseURL s => rfl
    | withClientID s => rfl
    | withTimeNow f => exact absurd (List.mem_cons_self _ _) (h f)
    | withTimeSleep => rfl

/-- Auxiliary: folding options that never set the sleep function leaves
the timeSleep field unchanged. -/
theorem foldl_timeSleep_unchanged (opts : List DeviceAuthFlowOption) :
    ∀ daf0 : DeviceAuthFlow, DeviceAuthFlowOption.withTimeSleep ∉ opts →
    (opts.foldl applyOption daf0).timeSleep = daf0.timeSleep := by
  induction opts with
  | nil => intro daf0 h; rfl
  | cons o rest ih =>
    intro daf0 h
    have hrest : DeviceAuthFlowOption.withTimeSleep ∉ rest :=
      fun hf => h (List.mem_cons_of_mem o hf)
    rw [List.foldl_cons, ih _ hrest]
    cases o with
    | withBaseURL s => rfl
    | withClientID s => rfl
    | withTimeNow f => rfl
    | withTimeSleep => exact absurd (List.mem_cons_self _ _) h

/-- C8: construction fails exactly when, after applying all options, the
base URL or the client ID is empty; a successfully built flow has both
non-empty; and when no time-source or sleep option was supplied the
built flow keeps the real-clock and real-sleep defaults. -/
theorem NewDeviceAuthFlow_config :
    (∀ opts : List DeviceAuthFlowOption,
      (∃ e, NewDeviceAuthFlow opts = .error e) ↔
        ((opts.foldl applyOption initialFlow).baseURL = "" ∨
         (opts.foldl applyOption initialFlow).clientID = "")) ∧
    (∀ opts daf, NewDeviceAuthFlow opts = .ok daf → daf.baseURL ≠ "" ∧ daf.clientID ≠ "") ∧
    (∀ opts daf, NewDeviceAuthFlow opts = .ok daf →
      (∀ f, DeviceAuthFlowOption.withTimeNow f ∉ opts) → daf.timeNow = .realNow) ∧
    (∀ opts daf, NewDeviceAuthFlow opts = .ok daf →
      DeviceAuthFlowOption.withTimeSleep ∉ opts → daf.timeSleep = .realSleep) := by
  have hok : ∀ opts daf, NewDeviceAuthFlow opts = .ok daf →
      daf = opts.foldl applyOption initialFlow ∧
      (opts.foldl applyOption initialFlow).baseURL ≠ "" ∧
      (opts.foldl applyOption initialFlow).clientID ≠ "" := by
    intro opts daf h
    unfold NewDeviceAuthFlow at h
    by_cases hb : (opts.foldl applyOption initialFlow).baseURL = ""
    · rw [if_pos hb] at h; exact absurd h (by simp)
    · rw [if_neg hb] at h
      by_cases hc : (opts.foldl applyOption initialFlow).clientID = ""
      · rw [if_pos hc] at h; exact absurd h (by simp)
      · rw [if_neg hc] at h
        simp only [Except.ok.injEq] at h
        exact ⟨h.symm, hb, hc⟩
  refine ⟨?_, ?_, ?_, ?_⟩
  · intro opts
    unfold NewDeviceAuthFlow
    by_cases hb : (opts.foldl applyOption initialFlow).baseURL = ""
    · simp [hb]
    · by_cases hc : (opts.foldl applyOption initialFlow).clientID = ""
      · simp [hb, hc]
      · simp [hb, hc]
  · intro opts daf h
    obtain ⟨rfl, hb, hc⟩ := hok opts daf h
    exact ⟨hb, hc⟩
  · intro opts daf h hno
    obtain ⟨rfl, -, -⟩ := hok opts daf h
    exact foldl_timeNow_unchanged opts initialFlow hno
  · intro opts daf h hno
    obtain ⟨rfl, -, -⟩ := hok opts daf h
    exact foldl_timeSleep_unchanged opts initialFlow hno

/-- Witness for C8 at a concrete option list supplying only the base URL
and the client ID. -/
theorem NewDeviceAuthFlow_config_witness :
    NewDeviceAuthFlow sampleFlowOpts = .ok sampleFlow ∧
    sampleFlow.baseURL ≠ "" ∧ sampleFlow.clientID ≠ "" ∧
    sampleFlow.timeNow = .realNow ∧ sampleFlow.timeSleep = .realSleep := by
  have h : NewDeviceAuthFlow sampleFlowOpts = .ok sampleFlow := rfl
  have h2 := NewDeviceAuthFlow_config.2.1 sampleFlowOpts sampleFlow h
  have h3 := NewDeviceAuthFlow_config.2.2.1 sampleFlowOpts sampleFlow h
    (by intro f hf; simp [sampleFlowOpts] at hf)
  have h4 := NewDeviceAuthFlow_config.2.2.2 sampleFlowOpts sampleFlow h
    (by simp [sampleFlowOpts])
  exact ⟨h, h2.1, h2.2, h3, h4⟩

/-- Auxiliary: upper-case hex encoding of a nibble is inverted by the
hex-digit reader. -/
theorem unhex_hexUpper : ∀ d, d < 16 → unhexDigit (hexUpperDigit d) = some d := by
  decide

/-- Auxiliary: a byte the query escaper passes through is neither the
percent byte nor the plus byte. -/
theorem not_escaped_not_special (b : Nat) (h : shouldEscape b = false) :
    b ≠ 37 ∧ b ≠ 43 := by
  constructor
  · intro hb; subst hb; exact absurd h (by decide)
  · intro hb; subst hb; exact absurd h (by decide)

/-- Auxiliary: query unescaping inverts query escaping on byte
strings. -/
theorem queryUnescape_queryEscape : ∀ l : List Nat, (∀ b ∈ l, b < 256) →
    queryUnescape (queryEscape l) = some l := by
  intro l
  induction l with
  | nil => intro h; rfl
  | cons b rest ih =>
    intro h
    have hb : b < 256 := h b (List.mem_cons_self b rest)
    have hrest := ih fun x hx => h x (List.mem_cons_of_mem b hx)
    by_cases h32 : b = 32
    · subst h32
      rw [queryEscape, queryUnescape.eq_def]
      simp [hrest]
    · by_cases hesc : shouldEscape b = true
      · have hdiv : b / 16 < 16 := by omega
        have hmod : b % 16 < 16 := by omega
        rw [queryEscape, queryUnescape.eq_def]
        simp [h32, hesc, unhex_hexUpper _ hdiv, unhex_hexUpper _ hmod, hrest]
        omega
      · have hspec := not_escaped_not_special b (by simpa using hesc)
        rw [queryEscape, queryUnescape.eq_def]
        simp [h32, hesc, hspec.1, hspec.2, hrest]

/-- C4 counterexample: for a client ID containing a space, the body the
source builds differs from the body with all three values
percent-encoded: the client ID is interpolated verbatim. -/
theorem deviceCodePayload_not_all_escaped :
    deviceCodePayload (asciiBytes "a b") (asciiBytes "s") (asciiBytes "t") =
      asciiBytes "client_id=a b&scope=s&audience=t" ∧
    specDeviceCodePayload (asciiBytes "a b") (asciiBytes "s") (asciiBytes "t") =
      asciiBytes "client_id=a+b&scope=s&audience=t" ∧
    deviceCodePayload (asciiBytes "a b") (asciiBytes "s") (asciiBytes "t") ≠
      specDeviceCodePayload (asciiBytes "a b") (asciiBytes "s") (asciiBytes "t") := by
  refine ⟨?_, ?_, ?_⟩ <;> decide

/-- C4 amended: the device-code form body percent-encodes scope and
audience (losslessly: query unescaping recovers them) but interpolates
the client ID verbatim, without percent-encoding. -/
theorem deviceCodePayload_escaping (clientID scope audience : List Nat)
    (hs : ∀ b ∈ scope, b < 256) (ha : ∀ b ∈ audience, b < 256) :
    deviceCodePayload clientID scope audience =
      asciiBytes "client_id=" ++ clientID ++ asciiBytes "&scope=" ++ queryEscape scope ++
        asciiBytes "&audience=" ++ queryEscape audience ∧
    queryUnescape (queryEscape scope) = some scope ∧
    queryUnescape (queryEscape audience) = some audience :=
  ⟨rfl, queryUnescape_queryEscape scope hs, queryUnescape_queryEscape audience ha⟩

/-- Witness for the amended C4 at the scope and audience of the
repository's own test. -/
theorem deviceCodePayload_escaping_witness :
    deviceCodePayload (asciiBytes "clientID") (asciiBytes "openid profile")
        (asciiBytes "https://example.com/api") =
      asciiBytes "client_id=" ++ asciiBytes "clientID" ++ asciiBytes "&scope=" ++
        queryEscape (asciiBytes "openid profile") ++ asciiBytes "&audience=" ++
        queryEscape (asciiBytes "https://example.com/api") ∧
    queryUnescape (queryEscape (asciiBytes "openid profile")) =
      some (asciiBytes "openid profile") ∧
    queryUnescape (queryEscape (asciiBytes "https://example.com/api")) =
      some (asciiBytes "https://example.com/api") :=
  deviceCodePayload_escaping (asciiBytes "clientID") (asciiBytes "openid profile")
    (asciiBytes "https://example.com/api") (by decide) (by decide)

end A0daf
